import Mathlib

/-!
Shallow embedding of the `scout_agent` news pipeline
(`agent.py`, `evaluator.py`, `tools.py`, `models.py`).

Modelling conventions:
* Python strings are `List Char` where character indexing matters
  (the two-stage JSON recovery uses `str.find` / `str.rfind` / slicing),
  and Lean `String` for plain payload fields.
* `json.loads` is an external library call; it is passed in as a parameter
  `parse : List Char → Option α` that returns the decoded, shape-typed value
  on success and `none` on a `JSONDecodeError`.  A small executable JSON
  (sub-)parser `parseMiniJson` is provided so that concrete runs can be
  evaluated.
* The chat-completion response text and the Google-News URL decoder are
  likewise external inputs, passed as parameters (`response`, `decode`).
* Exceptions are modelled with `Except`: an `.error` value is an uncaught
  Python exception escaping the modelled function.
* Python floats that carry evaluation scores are modelled as `Rat`;
  `round(x, 2)` is modelled as exact round-half-to-even at two decimals.
-/

namespace ScoutAgent

/-! ## Data model (`models.py`, validated pydantic records) -/

/-- Validated `NewsArticle` (models.py).  `description` holds the
related-article links and is annotated `List[str]` in the source. -/
structure NewsArticle where
  title : String
  link : String
  pub_date : Option Nat
  source : String
  description : List String
deriving DecidableEq, Repr

/-- Validated `AnalysisResult` (models.py): one finding produced by the
analysis agent.  Pydantic constrains `importance_score` to `[1, 10]`. -/
structure AnalysisResult where
  importance_score : Int
  summary : String
  original_title : String
  original_link : String
  reasoning : Option String
  description : List String
deriving DecidableEq, Repr

/-- `ScoutReport` (models.py).  `generated_at` is an abstract timestamp. -/
structure ScoutReport where
  generated_at : Nat
  analyzed_articles : Nat
  important_findings : List AnalysisResult
deriving DecidableEq, Repr

/-- One object of the JSON array returned by the analysis model, as decoded
by `json.loads`.  A field is `none` when the key is absent from the object
(Python dict indexing on it raises `KeyError`). -/
structure JItem where
  importance_score : Option Int
  summary : Option String
  original_title : Option String
  original_link : Option String
  reasoning : Option String
  description : Option (List String)
deriving DecidableEq, Repr

/-- `EvaluationScore` (evaluator.py): one rubric criterion score. -/
structure EvaluationScore where
  criterion : String
  score : Int
  reasoning : String
deriving DecidableEq, Repr

/-- `ArticleEvaluation` (evaluator.py): the judge's verdict on one finding.
Pydantic constrains `overall_score` to `[1, 5]` and each criterion score
to `[1, 5]`. -/
structure ArticleEvaluation where
  article_title : String
  overall_score : Rat
  scores : List EvaluationScore
  strengths : List String
  weaknesses : List String
  suggestions : String
deriving DecidableEq, Repr

/-- Content of the overall-feedback string built by
`_generate_overall_feedback`: the qualitative performance band, the
strengths bullet lines and the weaknesses bullet lines, in emission order. -/
structure FeedbackParts where
  performance : String
  strengths : List String
  weaknesses : List String
deriving DecidableEq, Repr

/-- `EvaluationReport` (evaluator.py).  `overall_feedback` is kept in its
structured `FeedbackParts` form. -/
structure EvaluationReport where
  evaluated_at : Nat
  total_articles : Nat
  average_score : Rat
  evaluations : List ArticleEvaluation
  overall_feedback : FeedbackParts
deriving DecidableEq, Repr

/-- Uncaught Python exceptions escaping `analyze_articles`. -/
inductive AgentErr where
  | keyError (key : String)
  | validationErr
deriving DecidableEq, Repr

/-- Failure modes of the shared two-stage JSON recovery. -/
inductive ExtractFail where
  | sliceParseFailed
  | noDelims
deriving DecidableEq, Repr

/-- Uncaught Python exceptions escaping the evaluator. -/
inductive EvalErr where
  | jsonDecode
  | noJsonFound
  | validationErr
  | countMismatch
deriving DecidableEq, Repr

/-! ## Python string helpers (`str.find`, `str.rfind`, slicing) -/

/-- Index of the first character satisfying `p`, if any. -/
def findAux (p : Char → Bool) : List Char → Option Nat
  | [] => none
  | x :: xs => if p x then some 0 else (findAux p xs).map (· + 1)

/-- Python `s.find(ch)`: first index of `ch`, `-1` when absent. -/
def pyFind (cs : List Char) (ch : Char) : Int :=
  match findAux (fun x => x == ch) cs with
  | some i => (i : Int)
  | none => -1

/-- Python `s.rfind(ch)`: last index of `ch`, `-1` when absent. -/
def pyRFind (cs : List Char) (ch : Char) : Int :=
  match findAux (fun x => x == ch) cs.reverse with
  | some i => (cs.length : Int) - 1 - (i : Int)
  | none => -1

/-- Python `s[start:stop]` for the in-range, non-negative indices the code
produces (`0 ≤ start < stop ≤ len`). -/
def pySlice (cs : List Char) (start stop : Int) : List Char :=
  (cs.drop start.toNat).take (stop.toNat - start.toNat)

/-! ## Two-stage JSON recovery

Shared shape of the parse logic in `analyze_articles` (agent.py, with
delimiters `[` and `]`) and `evaluate_analysis` (evaluator.py, with
delimiters `\x7b` and `\x7d`): try `json.loads` on the whole text; on
failure, slice from the first opening delimiter to the last closing
delimiter and try again. -/

/-- Two-stage JSON recovery; `.error .sliceParseFailed` is the inner
`json.loads` failing on the sliced substring, `.error .noDelims` is the
`start_idx >= 0 and end_idx > start_idx` guard failing. -/
def extractJson {α : Type} (parse : List Char → Option α) (o c : Char)
    (text : List Char) : Except ExtractFail α :=
  match parse text with
  | some v => .ok v
  | none =>
    let start_idx := pyFind text o
    let end_idx := pyRFind text c + 1
    if 0 ≤ start_idx ∧ start_idx < end_idx then
      match parse (pySlice text start_idx end_idx) with
      | some v => .ok v
      | none => .error .sliceParseFailed
    else
      .error .noDelims

/-! ## A small executable JSON parser

Executable fragment of the JSON grammar (arrays and non-negative integer
literals, with blanks), used to instantiate the `parse` parameter on
concrete runs.  Fuel-indexed to make termination structural. -/

/-- JSON values of the executable fragment. -/
inductive JVal where
  | num (n : Nat)
  | arr (elems : List JVal)

/-- Drop leading blanks. -/
def skipWs (cs : List Char) : List Char := cs.dropWhile (· == ' ')

/-- Digits to a number, most significant first. -/
def natOfDigits (ds : List Char) : Nat :=
  ds.foldl (fun acc d => 10 * acc + (d.toNat - 48)) 0

mutual

/-- Parse one JSON value, returning it with the unconsumed rest. -/
def parseVal : Nat → List Char → Option (JVal × List Char)
  | 0, _ => none
  | fuel + 1, cs =>
    match skipWs cs with
    | [] => none
    | ch :: rest =>
      if ch.isDigit then
        let digits := (ch :: rest).takeWhile Char.isDigit
        some (.num (natOfDigits digits), (ch :: rest).dropWhile Char.isDigit)
      else if ch == '[' then
        match skipWs rest with
        | ']' :: rest2 => some (.arr [], rest2)
        | _ => match parseElems fuel rest with
          | some (elems, rest2) => some (.arr elems, rest2)
          | none => none
      else
        none

/-- Parse a comma-separated element list followed by `]`. -/
def parseElems : Nat → List Char → Option (List JVal × List Char)
  | 0, _ => none
  | fuel + 1, cs =>
    match parseVal fuel cs with
    | none => none
    | some (v, rest) =>
      match skipWs rest with
      | ',' :: rest2 =>
        match parseElems fuel rest2 with
        | some (elems, rest3) => some (v :: elems, rest3)
        | none => none
      | ']' :: rest2 => some ([v], rest2)
      | _ => none

end

/-- Whole-input parse in the executable JSON fragment: the entire text,
up to trailing blanks, must be one JSON value (as with `json.loads`). -/
def parseMiniJson (cs : List Char) : Option JVal :=
  match parseVal (2 * cs.length + 2) cs with
  | some (v, rest) => if skipWs rest == [] then some v else none
  | none => none

/-! ## Analysis agent (`agent.py`) -/

/-- Python `item["key"]` on the decoded object: the value when the key is
present, an uncaught `KeyError` otherwise. -/
def req {α : Type} (field : Option α) (key : String) : Except AgentErr α :=
  match field with
  | some v => .ok v
  | none => .error (.keyError key)

/-- Pydantic construction of `AnalysisResult`: `importance_score` must be
an integer in `[1, 10]` (`Field(..., ge=1, le=10)`), else a
`ValidationError` is raised. -/
def mkAnalysisResult (score : Int) (summary otitle link : String)
    (reasoning : Option String) (desc : List String) :
    Except AgentErr AnalysisResult :=
  if 1 ≤ score ∧ score ≤ 10 then
    .ok ⟨score, summary, otitle, link, reasoning, desc⟩
  else
    .error .validationErr

/-- Body of the reconciliation loop of `analyze_articles` for one parsed
object: match it to an input article by exact title (`.ok none` drops an
unmatched object), then read the remaining keys with Python dict indexing
in source evaluation order and build the validated `AnalysisResult`,
resolving `original_link` through the URL decoder `decode`. -/
def processItem (decode : String → String) (articles : List NewsArticle)
    (item : JItem) : Except AgentErr (Option AnalysisResult) :=
  match articles.find? (fun a => item.original_title == some a.title) with
  | none => .ok none
  | some _ =>
    match req item.original_link "original_link" with
    | .error e => .error e
    | .ok rawLink =>
      let link := decode rawLink
      match req item.importance_score "importance_score" with
      | .error e => .error e
      | .ok score =>
        match req item.summary "summary" with
        | .error e => .error e
        | .ok summary =>
          match req item.original_title "original_title" with
          | .error e => .error e
          | .ok otitle =>
            match req item.reasoning "reasoning" with
            | .error e => .error e
            | .ok reasoning =>
              match req item.description "description" with
              | .error e => .error e
              | .ok desc =>
                match mkAnalysisResult score summary otitle link
                    (some reasoning) desc with
                | .error e => .error e
                | .ok r => .ok (some r)

/-- Reconciliation loop of `analyze_articles`: process parsed objects in
array order, keep the matched ones, propagate the first uncaught
exception. -/
def processItems (decode : String → String) (articles : List NewsArticle) :
    List JItem → Except AgentErr (List AnalysisResult)
  | [] => .ok []
  | item :: rest =>
    match processItem decode articles item with
    | .error e => .error e
    | .ok none => processItems decode articles rest
    | .ok (some r) =>
      match processItems decode articles rest with
      | .error e => .error e
      | .ok tl => .ok (r :: tl)

/-- `analyze_articles` (agent.py), from the model's `response` text on:
two-stage JSON recovery with `[` and `]`; on total recovery failure the
raw response is logged and `[]` is returned (no exception); on success the
reconciliation loop runs. -/
def analyze_articles (parse : List Char → Option (List JItem))
    (decode : String → String) (articles : List NewsArticle)
    (response : List Char) : Except AgentErr (List AnalysisResult) :=
  match extractJson parse '[' ']' response with
  | .error _ => .ok []
  | .ok items => processItems decode articles items

/-- Fetch-stage failures reaching `generate_scout_report`. -/
inductive FetchErr where
  | validationErr
deriving DecidableEq, Repr

/-- `generate_scout_report` (agent.py): the whole body runs under a
`try/except` that prints the error and returns `None`, so the result is
an `Option`.  The fetched-article outcome arrives as `fetchResult`; an
empty fetch raises (and is then caught), otherwise the analysis runs and
findings with `importance_score >= 5` are kept. -/
def generate_scout_report (fetchResult : Except FetchErr (List NewsArticle))
    (parse : List Char → Option (List JItem)) (decode : String → String)
    (response : List Char) (now : Nat) : Option ScoutReport :=
  match fetchResult with
  | .error _ => none
  | .ok articles =>
    if articles.isEmpty then
      none
    else
      match analyze_articles parse decode articles response with
      | .error _ => none
      | .ok analysis_results =>
        some ⟨now, articles.length,
          analysis_results.filter (fun r => 5 ≤ r.importance_score)⟩

/-! ## Evaluator (`evaluator.py`) -/

/-- Pydantic validation of `ArticleEvaluation(**eval_data)`:
`overall_score` in `[1, 5]` and every criterion score in `[1, 5]`. -/
def validateEval (e : ArticleEvaluation) : Except EvalErr ArticleEvaluation :=
  if 1 ≤ e.overall_score ∧ e.overall_score ≤ 5
      ∧ e.scores.all (fun s => 1 ≤ s.score ∧ s.score ≤ 5) then
    .ok e
  else
    .error .validationErr

/-- `evaluate_analysis` (evaluator.py), from the judge's `response` text
on: two-stage JSON recovery with `\x7b` and `\x7d`; unlike the analysis
path, a recovery failure raises (`JSONDecodeError` from the inner
`json.loads`, or the explicit `ValueError` when no braces are found). -/
def evaluate_analysis (parse : List Char → Option ArticleEvaluation)
    (response : List Char) (_article : NewsArticle)
    (_analysis : AnalysisResult) : Except EvalErr ArticleEvaluation :=
  match extractJson parse '\x7b' '\x7d' response with
  | .ok e => validateEval e
  | .error .sliceParseFailed => .error .jsonDecode
  | .error .noDelims => .error .noJsonFound

/-- Sequential judging loop of `evaluate_batch`: one `evaluate_analysis`
call per article/analysis pair (the `idx`-th call sees `responses idx`),
accumulating the evaluations and the running `total_score`.  The second
component counts the `evaluate_analysis` calls actually issued. -/
def evalLoop (parse : List Char → Option ArticleEvaluation)
    (responses : Nat → List Char) :
    List (NewsArticle × AnalysisResult) → Nat →
    Except EvalErr (List ArticleEvaluation × Rat) × Nat
  | [], _ => (.ok ([], 0), 0)
  | (a, r) :: rest, idx =>
    match evaluate_analysis parse (responses idx) a r with
    | .error e => (.error e, 1)
    | .ok ev =>
      match evalLoop parse responses rest (idx + 1) with
      | (.error e, n) => (.error e, n + 1)
      | (.ok (evs, total), n) => (.ok (ev :: evs, ev.overall_score + total), n + 1)

/-- Round half to even at integer precision, the rounding used by the
Python builtin `round`. -/
def roundHalfEven (q : Rat) : Int :=
  if q - ⌊q⌋ < 1 / 2 then ⌊q⌋
  else if 1 / 2 < q - ⌊q⌋ then ⌊q⌋ + 1
  else if ⌊q⌋ % 2 = 0 then ⌊q⌋ else ⌊q⌋ + 1

/-- Python `round(x, 2)`. -/
def round2 (q : Rat) : Rat := (roundHalfEven (q * 100) : Rat) / 100

/-- Performance banding of `_generate_overall_feedback`. -/
def performanceBand (avg : Rat) : String :=
  if 4.5 ≤ avg then "excellent"
  else if 4.0 ≤ avg then "very good"
  else if 3.5 ≤ avg then "good"
  else if 3.0 ≤ avg then "satisfactory"
  else "needs improvement"

/-- First-occurrence deduplication, the multiset content of Python's
`set(...)` (set iteration order is unspecified; membership and
multiplicity are order-independent). -/
def dedupFirst : List String → List String
  | [] => []
  | x :: xs => x :: (dedupFirst xs).filter (fun y => y ≠ x)

/-- Content of the string built by `_generate_overall_feedback`
(evaluator.py): the performance band for `avg`, then one bullet per
element of `set(all_strengths[:5])`, then one per element of
`set(all_weaknesses[:5])`; a section is omitted when its full list is
empty. -/
def overallFeedbackParts (evaluations : List ArticleEvaluation)
    (avg : Rat) : FeedbackParts :=
  let all_strengths := (evaluations.map (fun e => e.strengths)).flatten
  let all_weaknesses := (evaluations.map (fun e => e.weaknesses)).flatten
  ⟨performanceBand avg,
   if all_strengths.isEmpty then [] else dedupFirst (all_strengths.take 5),
   if all_weaknesses.isEmpty then [] else dedupFirst (all_weaknesses.take 5)⟩

/-- `evaluate_batch` (evaluator.py).  Checks the length precondition, runs
the judging loop, then assembles the report: `average_score` is
`round(avg_score, 2)` where `avg_score` is `total_score / len(evaluations)`
(`0` for an empty batch), and `overall_feedback` is generated from the
unrounded `avg_score`.  The second component counts `evaluate_analysis`
calls. -/
def evaluate_batch (parse : List Char → Option ArticleEvaluation)
    (responses : Nat → List Char) (articles : List NewsArticle)
    (analyses : List AnalysisResult) (now : Nat) :
    Except EvalErr EvaluationReport × Nat :=
  if articles.length ≠ analyses.length then
    (.error .countMismatch, 0)
  else
    match evalLoop parse responses (articles.zip analyses) 0 with
    | (.error e, n) => (.error e, n)
    | (.ok (evaluations, total_score), n) =>
      let avg_score : Rat :=
        if evaluations.isEmpty then 0
        else total_score / (evaluations.length : Rat)
      (.ok ⟨now, articles.length, round2 avg_score, evaluations,
        overallFeedbackParts evaluations avg_score⟩, n)

/-! ## Feed fetcher (`tools.py`) -/

/-- One parsed feed entry as `feedparser` presents it: `description` is
the entry's raw description markup when the attribute exists. -/
structure FeedEntry where
  title : String
  link : String
  published_parsed : Option Nat
  source_title : Option String
  description : Option String
deriving DecidableEq, Repr

/-- Pydantic-v2 validation of the `description` keyword argument of
`NewsArticle(...)` as `fetch_news_from_rss` supplies it: the field is
annotated `List[str]`, so the raw markup string (when the entry has a
description) and the explicit `None` (when it does not) are both rejected
with a `ValidationError`; only a list of strings would pass. -/
inductive FetchValErr where
  | descStrNotList
  | descNoneNotList
deriving DecidableEq, Repr

/-- Construction of one `NewsArticle` inside the fetch loop (tools.py):
title and link are passed verbatim, the source title defaults to
`"Unknown"`, and the description argument is the raw entry description or
`None` — which pydantic rejects for the `List[str]` field. -/
def mkNewsArticleFromEntry (e : FeedEntry) : Except FetchValErr NewsArticle :=
  match e.description with
  | some _ => .error .descStrNotList
  | none => .error .descNoneNotList

/-- Fetch loop body: build articles in feed order, letting the first
uncaught validation error escape. -/
def fetchGo : List FeedEntry → Except FetchValErr (List NewsArticle)
  | [] => .ok []
  | e :: rest =>
    match mkNewsArticleFromEntry e with
    | .error v => .error v
    | .ok a =>
      match fetchGo rest with
      | .error v => .error v
      | .ok articles => .ok (a :: articles)

/-- `fetch_news_from_rss` (tools.py): take at most `maxArticles` entries
in feed order and build a `NewsArticle` from each. -/
def fetch_news_from_rss (entries : List FeedEntry)
    (maxArticles : Nat := 10) : Except FetchValErr (List NewsArticle) :=
  fetchGo (entries.take maxArticles)

/-! ## Specification-side definitions (for refinement comparisons) -/

/-- Modelled from the spec: the arithmetic mean of a list of scores,
`0` when the list is empty. -/
def specMean (scores : List Rat) : Rat :=
  if scores = [] then 0 else scores.sum / (scores.length : Rat)

/-- Modelled from the spec: the first `n` distinct strings of a list, in
first-occurrence order. -/
def specFirstDistinct (n : Nat) (l : List String) : List String :=
  (dedupFirst l).take n

/-! ## Concrete inputs used to evaluate the definitions -/

/-- A sample fetched article. -/
def artD : NewsArticle := ⟨"Headline A", "https://news.example/a", none, "Unknown", []⟩

/-- A sample finding for the sample article. -/
def anaD : AnalysisResult := ⟨5, "s", "Headline A", "https://news.example/a", none, []⟩

/-- Identity URL decoder (a decode failure returns the URL unchanged). -/
def idDecode : String → String := fun s => s

/-- Analysis-path parse behaviour that fails on every text. -/
def noParseItems : List Char → Option (List JItem) := fun _ => none

/-- Evaluation-path parse behaviour that fails on every text. -/
def noParseEval : List Char → Option ArticleEvaluation := fun _ => none

/-- A model response holding no JSON and no brackets at all. -/
def respD : List Char := "no json here".data

/-- Judge responses that are all empty. -/
def noResponses : Nat → List Char := fun _ => []

/-- A parsed analysis object whose title matches no input article. -/
def itemUnmatched : JItem :=
  ⟨some 8, some "s1", some "Other headline", some "https://news.example/b", some "r1", some []⟩

/-- A parsed analysis object matching `artD` with every key present. -/
def itemMatched : JItem :=
  ⟨some 7, some "s2", some "Headline A", some "https://news.example/a", some "r2", some []⟩

/-- A parsed analysis object matching `artD` but lacking the
`description` key. -/
def itemMissingDesc : JItem :=
  ⟨some 8, some "s3", some "Headline A", some "https://news.example/a", some "r3", none⟩

/-- Parse behaviour returning an unmatched object then a matched one. -/
def parseTwoItems : List Char → Option (List JItem) :=
  fun _ => some [itemUnmatched, itemMatched]

/-- Parse behaviour returning a matched object missing a key. -/
def parseMissingDesc : List Char → Option (List JItem) :=
  fun _ => some [itemMissingDesc]

/-- A judge verdict with `overall_score = 1`. -/
def evalLow : ArticleEvaluation := ⟨"Headline A", 1, [], [], [], ""⟩

/-- A judge verdict with `overall_score = 2`. -/
def evalTwo : ArticleEvaluation := ⟨"Headline A", 2, [], [], [], ""⟩

/-- A judge verdict with repeated strengths strings. -/
def evalStrengths : ArticleEvaluation :=
  ⟨"Headline A", 3, [], ["a", "a", "b", "c", "d", "e"], ["w"], ""⟩

/-- Evaluation-path parse behaviour keyed on the response length: the
first two judge responses decode to a score of 1, later ones to 2. -/
def parseScores : List Char → Option ArticleEvaluation := fun s =>
  if s.length = 0 then some evalLow
  else if s.length = 1 then some evalLow
  else some evalTwo

/-- Judge responses: the `i`-th call sees a text of length `i`. -/
def digitResponses : Nat → List Char := fun i => List.replicate i 'x'

/-- Prose before the embedded array in the spec scenario. -/
def c4pre : List Char := "Sure! Here is the JSON: ".data

/-- Interior of the embedded array in the spec scenario. -/
def c4mid : List Char := " 1, 2 ".data

/-- Prose after the embedded array in the spec scenario. -/
def c4post : List Char := " Hope that helps!".data

/-- Response text whose prose holds a stray bracket pair before its one
well-formed JSON array. -/
def proseStray : List Char := "a[b]c[1]".data

/-- The one well-formed JSON array embedded in `proseStray`. -/
def bareArr : List Char := "[1]".data

/-- Every contiguous slice of a character list. -/
def subSlices (l : List Char) : List (List Char) :=
  (List.range (l.length + 1)).flatMap (fun i =>
    (List.range (l.length + 1)).map (fun j => (l.drop i).take (j - i)))

/-- Whether a text is a well-formed JSON array of the executable
fragment. -/
def isArrParse (s : List Char) : Bool :=
  match parseMiniJson s with
  | some (JVal.arr _) => true
  | _ => false

/-- A feed entry whose description markup holds one hyperlink. -/
def entryHyper : FeedEntry :=
  ⟨"Example headline", "https://news.example/x", none, some "Example Source",
   some "<ol><li><a href=\"https://news.example/related\">Related article</a></li></ol>"⟩

/-! ## Helper lemmas -/

/-- Filtering away a string leaves no occurrence of it. -/
theorem count_filter_ne_self (d : List String) (y : String) :
    (d.filter (fun z => z ≠ y)).count y = 0 := by
  rw [List.count_eq_zero]
  intro hm
  have hy := (List.mem_filter.mp hm).2
  simp at hy

/-- Multiplicities after first-occurrence deduplication: a member occurs
exactly once, a non-member not at all. -/
theorem count_dedupFirst (l : List String) (y : String) :
    (dedupFirst l).count y = if y ∈ l then 1 else 0 := by
  induction l with
  | nil => simp [dedupFirst]
  | cons x xs ih =>
    by_cases hyx : y = x
    · subst hyx
      show List.count y (y :: (dedupFirst xs).filter (fun z => z ≠ y)) = _
      rw [List.count_cons_self, count_filter_ne_self]
      simp
    · show List.count y (x :: (dedupFirst xs).filter (fun z => z ≠ x)) = _
      have hfilter : ((dedupFirst xs).filter (fun z => z ≠ x)).count y
          = (dedupFirst xs).count y :=
        List.count_filter (by simpa using hyx)
      rw [List.count_cons_of_ne hyx, hfilter, ih]
      simp [List.mem_cons, hyx]

/-- The strengths bullets are the first-occurrence deduplication of the
first five strengths entries. -/
theorem strengths_overallFeedbackParts (evaluations : List ArticleEvaluation)
    (avg : Rat) :
    (overallFeedbackParts evaluations avg).strengths
      = dedupFirst (((evaluations.map (fun e => e.strengths)).flatten).take 5) := by
  unfold overallFeedbackParts
  by_cases h : ((evaluations.map (fun e => e.strengths)).flatten).isEmpty
  · rw [List.isEmpty_iff] at h
    simp [h, dedupFirst]
  · simp [h]

/-- The weaknesses bullets are the first-occurrence deduplication of the
first five weaknesses entries. -/
theorem weaknesses_overallFeedbackParts (evaluations : List ArticleEvaluation)
    (avg : Rat) :
    (overallFeedbackParts evaluations avg).weaknesses
      = dedupFirst (((evaluations.map (fun e => e.weaknesses)).flatten).take 5) := by
  unfold overallFeedbackParts
  by_cases h : ((evaluations.map (fun e => e.weaknesses)).flatten).isEmpty
  · rw [List.isEmpty_iff] at h
    simp [h, dedupFirst]
  · simp [h]

/-! ## C5: mismatched batch lengths -/

/-- C5: `evaluate_batch` on article and analysis sequences of different
lengths fails with the count-mismatch configuration error and issues zero
`evaluate_analysis` calls, so no evaluation report is produced. -/
theorem evaluate_batch_mismatch_no_calls
    (parse : List Char → Option ArticleEvaluation)
    (responses : Nat → List Char) (articles : List NewsArticle)
    (analyses : List AnalysisResult) (now : Nat)
    (h : articles.length ≠ analyses.length) :
    evaluate_batch parse responses articles analyses now
      = (.error .countMismatch, 0) := by
  unfold evaluate_batch
  rw [if_pos h]

/-- Witness for C5 at a concrete mismatched pair of sequences. -/
theorem evaluate_batch_mismatch_no_calls_witness :
    evaluate_batch noParseEval noResponses [artD] [] 0
      = (.error .countMismatch, 0) :=
  evaluate_batch_mismatch_no_calls noParseEval noResponses [artD] [] 0
    (by decide)

/-! ## C8: performance bands -/

/-- C8: `_generate_overall_feedback` classifies every average score into
exactly one of five bands with inclusive lower bounds: `excellent` at
4.5, `very good` at 4.0, `good` at 3.5, `satisfactory` at 3.0, and
`needs improvement` below 3.0. -/
theorem performance_band_characterization (x : Rat) :
    (performanceBand x = "excellent" ↔ 4.5 ≤ x)
    ∧ (performanceBand x = "very good" ↔ 4.0 ≤ x ∧ x < 4.5)
    ∧ (performanceBand x = "good" ↔ 3.5 ≤ x ∧ x < 4.0)
    ∧ (performanceBand x = "satisfactory" ↔ 3.0 ≤ x ∧ x < 3.5)
    ∧ (performanceBand x = "needs improvement" ↔ x < 3.0) := by
  have h1 : ((4.5 : Rat) = 9 / 2) := by norm_num
  have h2 : ((4.0 : Rat) = 4) := by norm_num
  have h3 : ((3.5 : Rat) = 7 / 2) := by norm_num
  have h4 : ((3.0 : Rat) = 3) := by norm_num
  unfold performanceBand
  rw [h1, h2, h3, h4]
  split_ifs with ha hb hc hd <;>
    refine ⟨?_, ?_, ?_, ?_, ?_⟩ <;>
    constructor <;>
    intro h <;>
    first
      | rfl
      | linarith
      | exact absurd h (by decide)
      | (exact ⟨by linarith, by linarith⟩)

/-! ## C9: feed-fetcher description handling -/

/-- C9 (code evaluation at the failing input): for a feed entry whose
description markup holds a hyperlink, `fetch_news_from_rss` does not
extract the link target; it passes the raw markup string to the
`List[str]`-annotated `description` field and the construction fails with
a validation error, so no article list is produced at all. -/
theorem fetch_description_validation_fails :
    fetch_news_from_rss [entryHyper] 10 = .error .descStrNotList
    ∧ ∀ articles, fetch_news_from_rss [entryHyper] 10 ≠ .ok articles := by
  refine ⟨rfl, fun articles h => ?_⟩
  rw [show fetch_news_from_rss [entryHyper] 10 = .error .descStrNotList
    from rfl] at h
  cases h

/-! ## C6: feedback strengths and weaknesses sections -/

/-- C6 counterexample: with one evaluation whose strengths are
`a, a, b, c, d, e`, the string `e` is among the first five distinct
strengths but is absent from the feedback's strengths section, because
the code deduplicates `all_strengths[:5]` — the first five entries
counted with multiplicity — rather than the first five distinct
strings. -/
theorem feedback_first_five_counterexample :
    "e" ∈ specFirstDistinct 5
        (([evalStrengths].map (fun e => e.strengths)).flatten)
    ∧ "e" ∉ (overallFeedbackParts [evalStrengths] 3).strengths := by
  decide

/-- C6 amended: the strengths section of the overall feedback contains
exactly the distinct strings among the first five strengths entries
(counted with multiplicity) across all evaluations, each exactly once,
and likewise for weaknesses. -/
theorem feedback_dedups_first_five (evaluations : List ArticleEvaluation)
    (avg : Rat) (s : String) :
    (s ∈ ((evaluations.map (fun e => e.strengths)).flatten).take 5 →
      (overallFeedbackParts evaluations avg).strengths.count s = 1)
    ∧ (s ∉ ((evaluations.map (fun e => e.strengths)).flatten).take 5 →
      (overallFeedbackParts evaluations avg).strengths.count s = 0)
    ∧ (s ∈ ((evaluations.map (fun e => e.weaknesses)).flatten).take 5 →
      (overallFeedbackParts evaluations avg).weaknesses.count s = 1)
    ∧ (s ∉ ((evaluations.map (fun e => e.weaknesses)).flatten).take 5 →
      (overallFeedbackParts evaluations avg).weaknesses.count s = 0) := by
  refine ⟨fun hmem => ?_, fun hmem => ?_, fun hmem => ?_, fun hmem => ?_⟩
  · rw [strengths_overallFeedbackParts, count_dedupFirst, if_pos hmem]
  · rw [strengths_overallFeedbackParts, count_dedupFirst, if_neg hmem]
  · rw [weaknesses_overallFeedbackParts, count_dedupFirst, if_pos hmem]
  · rw [weaknesses_overallFeedbackParts, count_dedupFirst, if_neg hmem]

/-- Witness for C6 (amended) at a concrete evaluation list. -/
theorem feedback_dedups_first_five_witness :
    (overallFeedbackParts [evalStrengths] 3).strengths.count "a" = 1 :=
  (feedback_dedups_first_five [evalStrengths] 3 "a").1 (by decide)

/-! ## C7: report average score -/

/-- The running `total_score` of the judging loop is the sum of the
overall scores of the evaluations it returns. -/
theorem evalLoop_total_eq_sum (parse : List Char → Option ArticleEvaluation)
    (responses : Nat → List Char) :
    ∀ (pairs : List (NewsArticle × AnalysisResult)) (idx : Nat)
      (evs : List ArticleEvaluation) (total : Rat) (n : Nat),
      evalLoop parse responses pairs idx = (.ok (evs, total), n) →
      total = (evs.map (fun e => e.overall_score)).sum := by
  intro pairs
  induction pairs with
  | nil =>
    intro idx evs total n h
    simp only [evalLoop, Prod.mk.injEq, Except.ok.injEq] at h
    obtain ⟨⟨h1, h2⟩, _⟩ := h
    subst h1 h2
    simp
  | cons p rest ih =>
    intro idx evs total n h
    obtain ⟨a, r⟩ := p
    simp only [evalLoop] at h
    cases he : evaluate_analysis parse (responses idx) a r with
    | error e => rw [he] at h; simp at h
    | ok ev =>
      rw [he] at h
      cases hl : evalLoop parse responses rest (idx + 1) with
      | mk res m =>
        rw [hl] at h
        cases res with
        | error e => simp at h
        | ok pr =>
          obtain ⟨evs', total'⟩ := pr
          simp only [Prod.mk.injEq, Except.ok.injEq] at h
          obtain ⟨⟨h1, h2⟩, _⟩ := h
          subst h1 h2
          have := ih (idx + 1) evs' total' m hl
          simp [this]

/-- C7 counterexample: a batch whose three evaluations score 1, 1 and 2
yields a report whose `average_score` is `1.33` — the mean rounded to two
decimal places — while the arithmetic mean of the `overall_score` values
is `4/3`, so the report field does not equal the mean. -/
theorem average_score_rounding_counterexample :
    (evaluate_batch parseScores digitResponses [artD, artD, artD]
        [anaD, anaD, anaD] 0).1
      = .ok (EvaluationReport.mk 0 3 (133 / 100) [evalLow, evalLow, evalTwo]
          ⟨"needs improvement", [], []⟩)
    ∧ specMean ([evalLow, evalLow, evalTwo].map (fun e => e.overall_score))
      = 4 / 3
    ∧ ((133 : Rat) / 100) ≠ 4 / 3 := by
  refine ⟨?_, ?_, by norm_num⟩
  · norm_num [evaluate_batch, evalLoop, evaluate_analysis, extractJson,
      parseScores, digitResponses, validateEval, evalLow, evalTwo, round2,
      roundHalfEven, overallFeedbackParts, performanceBand]
  · simp [specMean, evalLow, evalTwo]
    norm_num

/-- C7 amended: for every batch accepted by `evaluate_batch`, the
report's `average_score` equals the arithmetic mean of the evaluations'
`overall_score` values rounded to two decimal places (with the mean taken
as 0 for an empty batch). -/
theorem average_score_rounded_mean
    (parse : List Char → Option ArticleEvaluation)
    (responses : Nat → List Char) (articles : List NewsArticle)
    (analyses : List AnalysisResult) (now : Nat)
    (report : EvaluationReport) (n : Nat)
    (h : evaluate_batch parse responses articles analyses now
      = (.ok report, n)) :
    report.average_score
      = round2 (specMean (report.evaluations.map (fun e => e.overall_score))) := by
  unfold evaluate_batch at h
  by_cases hlen : articles.length ≠ analyses.length
  · rw [if_pos hlen] at h; simp at h
  · rw [if_neg hlen] at h
    cases hl : evalLoop parse responses (articles.zip analyses) 0 with
    | mk res m =>
      rw [hl] at h
      cases res with
      | error e => simp at h
      | ok pr =>
        obtain ⟨evaluations, total_score⟩ := pr
        simp only [Prod.mk.injEq, Except.ok.injEq] at h
        obtain ⟨hrep, _⟩ := h
        subst hrep
        have htot := evalLoop_total_eq_sum parse responses
          (articles.zip analyses) 0 evaluations total_score m hl
        rcases evaluations with _ | ⟨e0, es⟩
        · simp [specMean]
        · simp only [specMean, List.map_cons, List.isEmpty_cons,
            List.length_map, List.length_cons, reduceCtorEq, if_false,
            Bool.false_eq_true]
          rw [htot]
          simp

/-- Witness for C7 (amended) at a concrete one-element batch. -/
theorem average_score_rounded_mean_witness :
    (EvaluationReport.mk 0 1 1 [evalLow]
        ⟨"needs improvement", [], []⟩).average_score
      = round2 (specMean (((EvaluationReport.mk 0 1 1 [evalLow]
          ⟨"needs improvement", [], []⟩).evaluations).map
        (fun e => e.overall_score))) :=
  average_score_rounded_mean parseScores digitResponses [artD] [anaD] 0 _ 1
    (by norm_num [evaluate_batch, evalLoop, evaluate_analysis, extractJson,
      parseScores, digitResponses, validateEval, evalLow, round2,
      roundHalfEven, overallFeedbackParts, performanceBand])

/-! ## C1: scout-report invariants -/

/-- C1: every scout report actually produced has `analyzed_articles`
equal to the fetched-article count, and every finding in
`important_findings` scores at least 5 and comes from the
`analyze_articles` output — also when `important_findings` is empty. -/
theorem scout_report_invariants (articles : List NewsArticle)
    (parse : List Char → Option (List JItem)) (decode : String → String)
    (response : List Char) (now : Nat) (report : ScoutReport)
    (h : generate_scout_report (.ok articles) parse decode response now
      = some report) :
    report.analyzed_articles = articles.length
    ∧ ∃ results, analyze_articles parse decode articles response = .ok results
        ∧ ∀ f ∈ report.important_findings,
            5 ≤ f.importance_score ∧ f ∈ results := by
  simp only [generate_scout_report] at h
  by_cases he : articles.isEmpty
  · rw [if_pos he] at h; cases h
  · rw [if_neg he] at h
    cases hr : analyze_articles parse decode articles response with
    | error e => rw [hr] at h; cases h
    | ok results =>
      rw [hr] at h
      obtain rfl : (⟨now, articles.length,
          results.filter (fun r => 5 ≤ r.importance_score)⟩ : ScoutReport)
          = report := Option.some.inj h
      refine ⟨rfl, results, rfl, fun f hf => ⟨?_, List.mem_of_mem_filter hf⟩⟩
      have hp := List.of_mem_filter hf
      simpa using hp

/-- Witness for C1 at a concrete run whose `important_findings` is
empty. -/
theorem scout_report_invariants_witness :
    (⟨7, 1, []⟩ : ScoutReport).analyzed_articles = [artD].length
    ∧ ∃ results, analyze_articles noParseItems idDecode [artD] respD
        = .ok results
      ∧ ∀ f ∈ (⟨7, 1, []⟩ : ScoutReport).important_findings,
          5 ≤ f.importance_score ∧ f ∈ results :=
  scout_report_invariants [artD] noParseItems idDecode respD 7
    ⟨7, 1, []⟩ (by decide)

/-! ## C2: analysis-path total parse failure -/

/-- C2: when direct parsing of the model response fails and the
first-bracket-to-last-bracket substring parse also fails (or no such
substring exists), `analyze_articles` returns the empty list without
raising, and the scouting run still completes with an empty report. -/
theorem analyze_parse_failure_returns_empty
    (parse : List Char → Option (List JItem)) (decode : String → String)
    (articles : List NewsArticle) (response : List Char) (now : Nat)
    (h1 : parse response = none)
    (h2 : 0 ≤ pyFind response '[' →
      pyFind response '[' < pyRFind response ']' + 1 →
      parse (pySlice response (pyFind response '[')
        (pyRFind response ']' + 1)) = none) :
    analyze_articles parse decode articles response = .ok []
    ∧ (articles ≠ [] →
        generate_scout_report (.ok articles) parse decode response now
          = some ⟨now, articles.length, []⟩) := by
  have hext : ∃ f, extractJson parse '[' ']' response = .error f := by
    simp only [extractJson, h1]
    by_cases hc : 0 ≤ pyFind response '['
        ∧ pyFind response '[' < pyRFind response ']' + 1
    · rw [if_pos hc, h2 hc.1 hc.2]
      exact ⟨.sliceParseFailed, rfl⟩
    · rw [if_neg hc]
      exact ⟨.noDelims, rfl⟩
  obtain ⟨f, hf⟩ := hext
  have hana : analyze_articles parse decode articles response = .ok [] := by
    unfold analyze_articles
    rw [hf]
  refine ⟨hana, fun hne => ?_⟩
  simp only [generate_scout_report]
  rw [if_neg (by simpa [List.isEmpty_iff] using hne), hana]
  rfl

/-- Witness for C2 at a concrete bracket-free response. -/
theorem analyze_parse_failure_returns_empty_witness :
    analyze_articles noParseItems idDecode [artD] respD = .ok []
    ∧ ([artD] ≠ ([] : List NewsArticle) →
        generate_scout_report (.ok [artD]) noParseItems idDecode respD 7
          = some ⟨7, 1, []⟩) :=
  analyze_parse_failure_returns_empty noParseItems idDecode [artD] respD 7
    rfl (by decide)

/-! ## C3: unmatched findings are dropped -/

/-- Removing an object that matches no article does not change the
reconciliation loop's outcome. -/
theorem processItems_unmatched (decode : String → String)
    (articles : List NewsArticle) (item : JItem)
    (hfind : articles.find? (fun a => item.original_title == some a.title)
      = none) :
    ∀ (pre post : List JItem),
      processItems decode articles (pre ++ item :: post)
        = processItems decode articles (pre ++ post) := by
  intro pre
  induction pre with
  | nil =>
    intro post
    simp only [List.nil_append, processItems]
    rw [show processItem decode articles item = .ok none from by
      unfold processItem; rw [hfind]]
  | cons x xs ih =>
    intro post
    simp only [List.cons_append, processItems, List.append_eq]
    rw [ih post]

/-- C3: a parsed object whose `original_title` matches no input article
title is excluded from the output of `analyze_articles` with no error
raised, and the remaining objects are still processed. -/
theorem analyze_drops_unmatched (parse : List Char → Option (List JItem))
    (decode : String → String) (articles : List NewsArticle)
    (response : List Char) (pre post : List JItem) (item : JItem)
    (h1 : parse response = some (pre ++ item :: post))
    (h2 : ∀ a ∈ articles, item.original_title ≠ some a.title) :
    analyze_articles parse decode articles response
      = processItems decode articles (pre ++ post) := by
  have hfind : articles.find? (fun a => item.original_title == some a.title)
      = none := by
    rw [List.find?_eq_none]
    intro a ha
    simpa using h2 a ha
  unfold analyze_articles
  rw [show extractJson parse '[' ']' response = .ok (pre ++ item :: post)
    from by unfold extractJson; rw [h1]]
  exact processItems_unmatched decode articles item hfind pre post

/-- Witness for C3: an unmatched object followed by a matched one. -/
theorem analyze_drops_unmatched_witness :
    analyze_articles parseTwoItems idDecode [artD] respD
      = processItems idDecode [artD] [itemMatched] :=
  analyze_drops_unmatched parseTwoItems idDecode [artD] respD
    [] [itemMatched] itemUnmatched rfl (by decide)

/-! ## C10: matched objects with missing keys raise -/

/-- A matched object lacking one of the five directly-indexed keys makes
`processItem` raise a `KeyError` or reach no result. -/
theorem processItem_missing_key (decode : String → String)
    (articles : List NewsArticle) (item : JItem)
    (hmatch : (articles.find?
      (fun a => item.original_title == some a.title)).isSome)
    (hmiss : item.original_link = none ∨ item.importance_score = none
      ∨ item.summary = none ∨ item.reasoning = none
      ∨ item.description = none) :
    ∃ e, processItem decode articles item = .error e := by
  obtain ⟨a, ha⟩ := Option.isSome_iff_exists.mp hmatch
  have hot : item.original_title = some a.title := by
    have hp := List.find?_some ha
    simpa using hp
  cases hl : item.original_link with
  | none =>
    exact ⟨.keyError "original_link",
      by simp only [processItem, ha]; simp [hl, req]⟩
  | some link =>
    cases hs : item.importance_score with
    | none =>
      exact ⟨.keyError "importance_score",
        by simp only [processItem, ha]; simp [hl, hs, req]⟩
    | some score =>
      cases hsum : item.summary with
      | none =>
        exact ⟨.keyError "summary",
          by simp only [processItem, ha]; simp [hl, hs, hsum, req]⟩
      | some summary =>
        cases hre : item.reasoning with
        | none =>
          exact ⟨.keyError "reasoning",
            by simp only [processItem, ha]; simp [hl, hs, hsum, hot, hre, req]⟩
        | some reasoning =>
          cases hd : item.description with
          | none =>
            exact ⟨.keyError "description",
              by simp only [processItem, ha]
                 simp [hl, hs, hsum, hot, hre, hd, req]⟩
          | some desc =>
            rcases hmiss with h | h | h | h | h
            · rw [hl] at h; cases h
            · rw [hs] at h; cases h
            · rw [hsum] at h; cases h
            · rw [hre] at h; cases h
            · rw [hd] at h; cases h

/-- An error at the tail of the reconciliation loop makes the whole loop
error, whatever the prefix produces. -/
theorem processItems_error_extend (decode : String → String)
    (articles : List NewsArticle) :
    ∀ (pre rest : List JItem),
      (∃ e, processItems decode articles rest = .error e) →
      ∃ e, processItems decode articles (pre ++ rest) = .error e := by
  intro pre
  induction pre with
  | nil => intro rest h; simpa using h
  | cons x xs ih =>
    intro rest h
    obtain ⟨e, he⟩ := ih rest h
    cases hx : processItem decode articles x with
    | error e2 =>
      refine ⟨e2, ?_⟩
      simp only [List.cons_append, processItems, List.append_eq, hx]
    | ok o =>
      cases o with
      | none =>
        refine ⟨e, ?_⟩
        simp only [List.cons_append, processItems, List.append_eq, hx]
        exact he
      | some r =>
        refine ⟨e, ?_⟩
        simp only [List.cons_append, processItems, List.append_eq, hx, he]

/-- C10: a parsed object whose `original_title` matches an input article
but which lacks any of the directly-indexed keys `importance_score`,
`summary`, `original_link`, `reasoning` or `description` makes
`analyze_articles` raise an uncaught exception: the object is neither
dropped nor turned into an empty result, and the whole analysis aborts. -/
theorem analyze_missing_key_raises (parse : List Char → Option (List JItem))
    (decode : String → String) (articles : List NewsArticle)
    (response : List Char) (pre post : List JItem) (item : JItem)
    (h1 : parse response = some (pre ++ item :: post))
    (hmatch : (articles.find?
      (fun a => item.original_title == some a.title)).isSome)
    (hmiss : item.original_link = none ∨ item.importance_score = none
      ∨ item.summary = none ∨ item.reasoning = none
      ∨ item.description = none) :
    ∃ e, analyze_articles parse decode articles response = .error e := by
  obtain ⟨e0, he0⟩ := processItem_missing_key decode articles item hmatch hmiss
  have hrest : ∃ e, processItems decode articles (item :: post) = .error e :=
    ⟨e0, by simp only [processItems, he0]⟩
  obtain ⟨e, he⟩ :=
    processItems_error_extend decode articles pre (item :: post) hrest
  refine ⟨e, ?_⟩
  unfold analyze_articles
  rw [show extractJson parse '[' ']' response = .ok (pre ++ item :: post)
    from by unfold extractJson; rw [h1]]
  exact he

/-- Witness for C10: a matched object lacking the `description` key. -/
theorem analyze_missing_key_raises_witness :
    ∃ e, analyze_articles parseMissingDesc idDecode [artD] respD
      = .error e :=
  analyze_missing_key_raises parseMissingDesc idDecode [artD] respD
    [] [] itemMissingDesc rfl (by decide) (by decide)

/-! ## C4: two-stage JSON recovery on embedded JSON -/

/-- First hit of `findAux` past a prefix with no hit. -/
theorem findAux_append_first (p : Char → Bool) (pre rest : List Char)
    (y : Char) (hpre : ∀ x ∈ pre, p x = false) (hy : p y = true) :
    findAux p (pre ++ y :: rest) = some pre.length := by
  induction pre with
  | nil => simp [findAux, hy]
  | cons z zs ih =>
    have hz : p z = false := hpre z (List.mem_cons_self z zs)
    simp only [List.cons_append, findAux, hz, Bool.false_eq_true, if_false,
      List.append_eq]
    rw [ih (fun x hx => hpre x (List.mem_cons_of_mem z hx))]
    simp

/-- Evaluation rule for `pyFind` at a located hit. -/
theorem pyFind_eq (cs : List Char) (ch : Char) (i : Nat)
    (h : findAux (fun x => x == ch) cs = some i) :
    pyFind cs ch = (i : Int) := by
  unfold pyFind
  rw [h]

/-- Evaluation rule for `pyRFind` at a located hit in the reversal. -/
theorem pyRFind_eq (cs : List Char) (ch : Char) (i : Nat)
    (h : findAux (fun x => x == ch) cs.reverse = some i) :
    pyRFind cs ch = (cs.length : Int) - 1 - (i : Int) := by
  unfold pyRFind
  rw [h]

/-- C4 amended: when the model response is `pre ++ body ++ post` for a
parseable `body` delimited by `o` and `c`, the prose `pre` holds no
occurrence of the opening delimiter, the prose `post` none of the closing
delimiter, and direct parsing of the whole text fails, the two-stage
recovery returns the same value on the embedded text as on the bare
`body`. -/
theorem two_stage_parse_recovers_embedded {α : Type}
    (parse : List Char → Option α) (o c : Char) (pre mid post : List Char)
    (v : α) (hpre : o ∉ pre) (hpost : c ∉ post)
    (hdirect : parse (pre ++ (o :: mid ++ [c]) ++ post) = none)
    (hbody : parse (o :: mid ++ [c]) = some v) :
    extractJson parse o c (pre ++ (o :: mid ++ [c]) ++ post) = .ok v
    ∧ extractJson parse o c (o :: mid ++ [c]) = .ok v := by
  refine ⟨?_, by unfold extractJson; rw [hbody]⟩
  have hfind : pyFind (pre ++ (o :: mid ++ [c]) ++ post) o
      = (pre.length : Int) := by
    apply pyFind_eq
    rw [show pre ++ (o :: mid ++ [c]) ++ post
      = pre ++ o :: (mid ++ [c] ++ post) from by simp]
    exact findAux_append_first _ pre _ o
      (fun x hx => beq_eq_false_iff_ne.mpr (fun hxo => hpre (hxo ▸ hx)))
      (beq_self_eq_true o)
  have hrfind : pyRFind (pre ++ (o :: mid ++ [c]) ++ post) c
      = (pre.length : Int) + (mid.length : Int) + 1 := by
    have hrev : (pre ++ (o :: mid ++ [c]) ++ post).reverse
        = post.reverse ++ c :: (mid.reverse ++ o :: pre.reverse) := by
      simp
    have hra := findAux_append_first (fun x => x == c) post.reverse
      (mid.reverse ++ o :: pre.reverse) c
      (fun x hx => beq_eq_false_iff_ne.mpr
        (fun hxc => hpost (hxc ▸ (List.mem_reverse.mp hx))))
      (beq_self_eq_true c)
    rw [pyRFind_eq _ _ post.reverse.length (by rw [hrev]; exact hra)]
    simp only [List.length_append, List.length_cons, List.length_reverse,
      List.length_nil]
    push_cast
    ring
  simp only [extractJson, hdirect, hfind, hrfind]
  rw [if_pos (by constructor <;> omega)]
  have htoN1 : ((pre.length : Int)).toNat = pre.length := by omega
  have htoN2 : ((pre.length : Int) + (mid.length : Int) + 1 + 1).toNat
      = pre.length + (mid.length + 2) := by omega
  have hslice : pySlice (pre ++ (o :: mid ++ [c]) ++ post)
      ((pre.length : Int)) ((pre.length : Int) + (mid.length : Int) + 1 + 1)
      = o :: mid ++ [c] := by
    unfold pySlice
    rw [htoN1, htoN2]
    have hdrop : (pre ++ (o :: mid ++ [c]) ++ post).drop pre.length
        = (o :: mid ++ [c]) ++ post := by
      rw [show pre ++ (o :: mid ++ [c]) ++ post
        = pre ++ ((o :: mid ++ [c]) ++ post) from by simp]
      exact List.drop_left pre _
    rw [hdrop]
    have h3 : pre.length + (mid.length + 2) - pre.length = mid.length + 2 := by
      omega
    rw [h3]
    exact List.take_left' (by simp)
  rw [hslice, hbody]

/-- Witness for C4 (amended): the spec scenario where the model wraps the
array in prose, evaluated with the executable JSON parser. -/
theorem two_stage_parse_recovers_embedded_witness :
    extractJson parseMiniJson '[' ']' (c4pre ++ ('[' :: c4mid ++ [']']) ++ c4post)
      = .ok (JVal.arr [JVal.num 1, JVal.num 2])
    ∧ extractJson parseMiniJson '[' ']' ('[' :: c4mid ++ [']'])
      = .ok (JVal.arr [JVal.num 1, JVal.num 2]) :=
  two_stage_parse_recovers_embedded parseMiniJson '[' ']' c4pre c4mid c4post
    (JVal.arr [JVal.num 1, JVal.num 2]) (by decide) (by decide) rfl rfl

/-- C4 counterexample: the response `a[b]c[1]` embeds exactly one
well-formed JSON array, `[1]`, yet the two-stage recovery fails on the
full text (the slice from the first `[` to the last `]` is `[b]c[1]`,
which does not parse) while it succeeds on the bare array — so recovery
on prose-wrapped JSON is not always equivalent to parsing the bare JSON
when the prose itself holds delimiter characters. -/
theorem two_stage_parse_prose_counterexample :
    (subSlices proseStray).filter isArrParse = [bareArr]
    ∧ extractJson parseMiniJson '[' ']' proseStray = .error .sliceParseFailed
    ∧ extractJson parseMiniJson '[' ']' bareArr = .ok (JVal.arr [JVal.num 1])
    ∧ (Except.error .sliceParseFailed : Except ExtractFail JVal)
      ≠ .ok (JVal.arr [JVal.num 1]) := by
  refine ⟨by rfl, by rfl, by rfl, ?_⟩
  intro h
  cases h

end ScoutAgent
